import Mathlib

/-!
Shallow embedding of the budget/cash/working-capital metrics engine of the
accounting repository (src/lib/backend_calculations.py together with the
ledger access helpers of src/lib/db.py that it calls).

Modelling conventions:
* Monetary amounts are integers counted in the smallest currency unit
  (the Python code works on decimal-like floats produced by pd.to_numeric;
  the calculators only ever add, subtract and negate amounts, never divide
  or round, and every claim is an exact additive identity, so the additive
  group ℤ of cent amounts is a faithful carrier).
* Calendar dates are natural numbers (day indices); sorting by date in
  pandas corresponds to sorting these numbers.
* A Store is the immutable snapshot of the external database that the
  ledger access layer reads during one computation, plus the clock value
  used by pd.Timestamp.now().
* st.stop() and uncaught Python exceptions inside a fetch are modelled as
  Except.error; every total computation returns a plain value.
-/

/-- A row of the accounting_budget_years table: year_label, opening_cash. -/
structure BudgetYearRow where
  year_label : String
  opening_cash : ℤ
deriving Repr, DecidableEq

/-- A row of the accounting_budget table (one budget entry = one category,
type and amount for a year). -/
structure BudgetEntry where
  id : Nat
  year_label : String
  category_name : String
  budget_type : String
  budget : ℤ
deriving Repr, DecidableEq

/-- A row of the accounting_transactions table (fields used by the core). -/
structure Txn where
  id : Nat
  year_label : String
  txn_date : Nat
  budget_category_id : Option Nat
  amount : ℤ
  is_expense : Bool
deriving Repr, DecidableEq

/-- A transaction joined with its resolved category display name, as
returned by fetch_transactions_with_categories. -/
structure TxnCat extends Txn where
  category : String
deriving Repr, DecidableEq

/-- A working-capital row (AR / AP / INVENTORY). -/
structure WCEntry where
  id : Nat
  book_year_label : Option String
  kind : String
  kind_detail : Option String
  amount : ℤ
deriving Repr, DecidableEq

/-- The database snapshot seen by one computation, plus the current date.
savings holds the per-year savings target rows read by get_savings. -/
structure Store where
  budget_years : List BudgetYearRow
  savings : List (String × ℤ)
  budget_entries : List BudgetEntry
  transactions : List Txn
  working_capital : List WCEntry
  today : Nat
deriving Repr

/-- db.get_opening_cash: opening_cash of the accounting_budget_years row
with the given year_label, 0 when the label is empty or no row matches. -/
def get_opening_cash (s : Store) (year_label : String) : ℤ :=
  if year_label = "" then 0
  else
    match s.budget_years.find? (fun r => r.year_label == year_label) with
    | some r => r.opening_cash
    | none => 0

/-- Modelled from the spec: get_savings is imported by
backend_calculations.py but its definition is missing from src/. Per the
external-interface table (fetch savings target: year_label -> decimal) and
the zero-default rule of the spec, it returns the savings target stored
for the year and 0 when no row matches. -/
def get_savings (s : Store) (year_label : String) : ℤ :=
  match s.savings.find? (fun p => p.1 == year_label) with
  | some p => p.2
  | none => 0

/-- db.fetch_budget_entries: all accounting_budget rows for the year,
empty when the label is empty (budget amounts already numeric here). -/
def fetch_budget_entries (s : Store) (year_label : String) : List BudgetEntry :=
  if year_label = "" then []
  else s.budget_entries.filter (fun e => e.year_label == year_label)

/-- db.fetch_categories_df: accounting_budget rows, filtered by year only
when the label is non-empty (the Python truthiness test). When the result
set is empty the Python function falls through its if/else without a
return statement and yields None; we model that as Option.none. -/
def fetch_categories_df (s : Store) (year_label : String) : Option (List BudgetEntry) :=
  let df :=
    if year_label = "" then s.budget_entries
    else s.budget_entries.filter (fun e => e.year_label == year_label)
  if df.isEmpty then none else some df

/-- Category resolution of the left merge in
fetch_transactions_with_categories: the category_name of the budget row
whose id equals the transaction budget_category_id, else Uncategorized. -/
def resolveCategory (cats : List BudgetEntry) (t : Txn) : String :=
  match t.budget_category_id with
  | none => "Uncategorized"
  | some cid =>
    match cats.find? (fun c => c.id == cid) with
    | some c => c.category_name
    | none => "Uncategorized"

/-- db.fetch_transactions: every transaction row (the DB orders them by
txn_date; the snapshot list is taken in that returned order). -/
def fetch_transactions (s : Store) : List Txn :=
  s.transactions

/-- db.fetch_transactions_with_categories: stops the script (st.stop) when
the transactions table is globally empty; filters the rows to the selected
year; joins category names through fetch_categories_df, which yields None
(and hence an AttributeError on .empty) when the year has no budget rows. -/
def fetch_transactions_with_categories (s : Store) (selected_year : String) :
    Except String (List TxnCat) :=
  let rows := fetch_transactions s
  if rows.isEmpty then
    Except.error "st.stop: No transactions yet."
  else
    let transaction_df := rows.filter (fun t => t.year_label == selected_year)
    match fetch_categories_df s selected_year with
    | none => Except.error "AttributeError: NoneType object has no attribute empty"
    | some cats =>
        Except.ok (transaction_df.map (fun t => { t with category := resolveCategory cats t }))

/-- Sum of the budget column of a list of budget entries. -/
def sumBudgets (l : List BudgetEntry) : ℤ :=
  (l.map (fun e => e.budget)).sum

/-- The record returned by calculate_budget_metrics. -/
structure BudgetMetrics where
  opening_cash : ℤ
  total_income : ℤ
  total_expenses_sem1 : ℤ
  total_expenses_sem2 : ℤ
  total_expenses_year : ℤ
  total_expenses_all : ℤ
  savings : ℤ
  free_float : ℤ
deriving Repr, DecidableEq

/-- backend_calculations.calculate_budget_metrics. -/
def calculate_budget_metrics (s : Store) (year_label : String) : BudgetMetrics :=
  if year_label = "" then
    { opening_cash := 0, total_income := 0, total_expenses_sem1 := 0,
      total_expenses_sem2 := 0, total_expenses_year := 0, total_expenses_all := 0,
      savings := 0, free_float := 0 }
  else
    let opening_cash := get_opening_cash s year_label
    let savings := get_savings s year_label
    let entries := fetch_budget_entries s year_label
    let total_income :=
      if entries.isEmpty then 0
      else sumBudgets (entries.filter (fun e => e.budget_type == "income"))
    let sem1 :=
      if entries.isEmpty then 0
      else sumBudgets (entries.filter (fun e => e.budget_type == "semester1"))
    let sem2 :=
      if entries.isEmpty then 0
      else sumBudgets (entries.filter (fun e => e.budget_type == "semester2"))
    let year_exp :=
      if entries.isEmpty then 0
      else sumBudgets (entries.filter (fun e => e.budget_type == "year"))
    let total_expenses_all := sem1 + sem2 + year_exp
    let free_float := opening_cash + total_income - total_expenses_all - savings
    { opening_cash := opening_cash, total_income := total_income,
      total_expenses_sem1 := sem1, total_expenses_sem2 := sem2,
      total_expenses_year := year_exp, total_expenses_all := total_expenses_all,
      savings := savings, free_float := free_float }

/-- Modelled from the spec: load_working_capital is imported from lib.db
by backend_calculations.py but its definition is missing from src/. Per
the external-interface table (fetch working-capital rows: optional
year_label, kind filter) and section 4.2, it returns the rows of the given
kind, scoped to book_year_label when one is supplied and unscoped
otherwise (Inventory is fetched without a year). -/
def load_working_capital (s : Store) (book_year_label : Option String) (kind : String) :
    List WCEntry :=
  (s.working_capital.filter (fun e => e.kind == kind)).filter
    (fun e =>
      match book_year_label with
      | some y => e.book_year_label == some y
      | none => true)

/-- Sum of the amount column of a list of working-capital rows. -/
def sumAmounts (l : List WCEntry) : ℤ :=
  (l.map (fun e => e.amount)).sum

/-- The record returned by calculate_working_capital_metrics. -/
structure WorkingCapitalMetrics where
  total_ar : ℤ
  total_ar_member : ℤ
  total_ar_sponsor : ℤ
  total_ar_other : ℤ
  total_ap : ℤ
  total_inventory : ℤ
  nwc : ℤ
deriving Repr, DecidableEq

/-- backend_calculations.calculate_working_capital_metrics. The model
always has the kind_detail column, so the columns-membership test of the
source is always true. -/
def calculate_working_capital_metrics (s : Store) (year_label : String) :
    WorkingCapitalMetrics :=
  let ar_df := load_working_capital s (some year_label) "AR"
  let total_ar := if ar_df.isEmpty then 0 else sumAmounts ar_df
  let ar_member :=
    if ar_df.isEmpty then 0
    else sumAmounts (ar_df.filter (fun e => e.kind_detail == some "Member"))
  let ar_sponsor :=
    if ar_df.isEmpty then 0
    else sumAmounts (ar_df.filter (fun e => e.kind_detail == some "Sponsor"))
  let ar_other :=
    if ar_df.isEmpty then 0
    else sumAmounts (ar_df.filter (fun e => e.kind_detail == some "Other"))
  let ap_df := load_working_capital s (some year_label) "AP"
  let total_ap := if ap_df.isEmpty then 0 else sumAmounts ap_df
  let inv_df := load_working_capital s none "INVENTORY"
  let total_inventory := if inv_df.isEmpty then 0 else sumAmounts inv_df
  let nwc := total_ar + total_inventory - total_ap
  { total_ar := total_ar, total_ar_member := ar_member, total_ar_sponsor := ar_sponsor,
    total_ar_other := ar_other, total_ap := total_ap, total_inventory := total_inventory,
    nwc := nwc }

/-- Signed amount of one joined transaction for the dashboard view:
+amount for an expense, -amount for an income (a refund reduces
net spending). -/
def net_amount (t : TxnCat) : ℤ :=
  if t.is_expense then t.amount else -t.amount

/-- Net spending of one category: the groupby-category sum of net_amount
restricted to the transactions of that category. The left merge with
fillna 0 of the source is equivalent: a category absent from the grouped
series has no transactions, and the empty sum is 0. -/
def spendingFor (txns : List TxnCat) (category : String) : ℤ :=
  ((txns.filter (fun t => t.category == category)).map net_amount).sum

/-- One output row of calculate_dashboard_data. -/
structure DashboardRow where
  category : String
  budget : ℤ
  net_spending : ℤ
  remaining : ℤ
  budget_type : String
deriving Repr, DecidableEq

/-- The budget-type filter of calculate_dashboard_data: the three named
period filters select one type each and every other string falls into the
catch-all Everything branch. -/
def filterBudgetRows (period_filter : String) (budget_df : List BudgetEntry) :
    List BudgetEntry :=
  if period_filter = "Sem 1" then
    budget_df.filter (fun e => e.budget_type == "semester1")
  else if period_filter = "Sem 2" then
    budget_df.filter (fun e => e.budget_type == "semester2")
  else if period_filter = "Year Expenses" then
    budget_df.filter (fun e => e.budget_type == "year")
  else
    budget_df.filter (fun e =>
      e.budget_type == "semester1" || e.budget_type == "semester2" || e.budget_type == "year")

/-- backend_calculations.calculate_dashboard_data. -/
def calculate_dashboard_data (s : Store) (year_label : String) (period_filter : String) :
    Except String (List DashboardRow) :=
  let budget_df := fetch_budget_entries s year_label
  if budget_df.isEmpty then Except.ok []
  else
    let budget_df := filterBudgetRows period_filter budget_df
    if budget_df.isEmpty then Except.ok []
    else
      match fetch_transactions_with_categories s year_label with
      | Except.error e => Except.error e
      | Except.ok txn_df =>
          Except.ok (budget_df.map (fun e =>
            { category := e.category_name, budget := e.budget,
              net_spending := spendingFor txn_df e.category_name,
              remaining := e.budget - spendingFor txn_df e.category_name,
              budget_type := e.budget_type }))

/-- Signed cash flow of one transaction: -amount for an expense, +amount
for an income. -/
def flow (t : TxnCat) : ℤ :=
  if t.is_expense then -t.amount else t.amount

/-- Net daily flow: the groupby-txn_date sum of flow for one date. -/
def dayFlow (txns : List TxnCat) (d : Nat) : ℤ :=
  ((txns.filter (fun t => t.txn_date == d)).map flow).sum

/-- Insert a date into a strictly ascending list of dates, skipping it
when already present (the set of groupby keys, kept sorted). -/
def insertDate (d : Nat) : List Nat → List Nat
  | [] => [d]
  | x :: xs =>
    if d < x then d :: x :: xs
    else if d = x then x :: xs
    else x :: insertDate d xs

/-- The strictly ascending list of distinct transaction dates: the index
of the groupby-date series after sort_index. -/
def sortedDates (txns : List TxnCat) : List Nat :=
  txns.foldl (fun acc t => insertDate t.txn_date acc) []

/-- One point of the cash-flow evolution series. -/
structure CashFlowPoint where
  date : Nat
  balance : ℤ
deriving Repr, DecidableEq

/-- The cumulative-sum walk over the sorted distinct dates: each day adds
its net flow to the running balance (cumsum seeded by the accumulator). -/
def runBalances (txns : List TxnCat) (acc : ℤ) : List Nat → List CashFlowPoint
  | [] => []
  | d :: ds =>
    { date := d, balance := acc + dayFlow txns d } :: runBalances txns (acc + dayFlow txns d) ds

/-- backend_calculations.calculate_cash_flow_evolution. -/
def calculate_cash_flow_evolution (s : Store) (year_label : String) :
    Except String (List CashFlowPoint) :=
  let opening_cash := get_opening_cash s year_label
  match fetch_transactions_with_categories s year_label with
  | Except.error e => Except.error e
  | Except.ok txn_df =>
      if txn_df.isEmpty then
        Except.ok [{ date := s.today, balance := opening_cash }]
      else
        Except.ok (runBalances txn_df opening_cash (sortedDates txn_df))

/-- backend_calculations.calculate_current_cash_position. -/
def calculate_current_cash_position (s : Store) (year_label : String) :
    Except String ℤ :=
  match calculate_cash_flow_evolution s year_label with
  | Except.error e => Except.error e
  | Except.ok cash_flow_df =>
      match cash_flow_df.getLast? with
      | none => Except.ok (get_opening_cash s year_label)
      | some p => Except.ok p.balance

/-- backend_calculations.calculate_cash_position_with_nwc. -/
def calculate_cash_position_with_nwc (s : Store) (year_label : String) :
    Except String ℤ :=
  match calculate_current_cash_position s year_label with
  | Except.error e => Except.error e
  | Except.ok current_cash =>
      Except.ok (current_cash + (calculate_working_capital_metrics s year_label).nwc)

/-! Concrete fixtures used by witnesses and counterexamples. exStore holds
the budget year 2025-26 with opening cash 50, savings 30, the four budget
entries of Scenario A, two Food transactions (income 50 on day 2, expense
30 on day 3) and the working-capital rows of Scenario C. -/

/-- Example snapshot: one budget year with entries, transactions and
working-capital rows. -/
def exStore : Store :=
  { budget_years := [⟨"2025-26", 50⟩],
    savings := [("2025-26", 30)],
    budget_entries :=
      [⟨1, "2025-26", "Income", "income", 1000⟩,
       ⟨2, "2025-26", "Food", "semester1", 200⟩,
       ⟨3, "2025-26", "Travel", "semester2", 150⟩,
       ⟨4, "2025-26", "Gear", "year", 100⟩],
    transactions :=
      [⟨10, "2025-26", 2, some 2, 50, false⟩,
       ⟨11, "2025-26", 3, some 2, 30, true⟩],
    working_capital :=
      [⟨1, some "2025-26", "AR", some "Member", 100⟩,
       ⟨2, some "2025-26", "AR", some "Sponsor", 50⟩,
       ⟨3, some "2025-26", "AP", none, 80⟩,
       ⟨4, none, "INVENTORY", none, 200⟩],
    today := 7 }

/-- The joined transactions that fetch_transactions_with_categories
returns on exStore for 2025-26. -/
def exTxnsCat : List TxnCat :=
  [⟨⟨10, "2025-26", 2, some 2, 50, false⟩, "Food"⟩,
   ⟨⟨11, "2025-26", 3, some 2, 30, true⟩, "Food"⟩]

/-- The dashboard output of exStore for 2025-26 with the Everything
filter. -/
def exRowsEverything : List DashboardRow :=
  [⟨"Food", 200, -20, 220, "semester1"⟩,
   ⟨"Travel", 150, 0, 150, "semester2"⟩,
   ⟨"Gear", 100, 0, 100, "year"⟩]

/-- The Food row of the exStore dashboard output. -/
def exFoodRow : DashboardRow := ⟨"Food", 200, -20, 220, "semester1"⟩

/-- A snapshot whose transactions table is globally empty but that has a
budget year with opening cash 500. -/
def emptyTxnStore : Store :=
  { budget_years := [⟨"2025-26", 500⟩],
    savings := [],
    budget_entries := [],
    transactions := [],
    working_capital := [],
    today := 0 }

/-- A snapshot where year B has no transactions but the transactions table
is globally non-empty (year A has one) and year B has a budget row, so the
fallback branch of the cash-flow calculator is actually reached. -/
def fallbackStore : Store :=
  { budget_years := [⟨"B", 500⟩],
    savings := [],
    budget_entries := [⟨7, "B", "Food", "semester1", 100⟩],
    transactions := [⟨1, "A", 5, none, 10, true⟩],
    working_capital := [],
    today := 42 }

/-! Helper lemmas. -/

/-- The empty-frame guard of the source collapses: the guarded sum equals
the plain sum because the sum over an empty list is already 0. -/
lemma ifIsEmpty_sumAmounts (l : List WCEntry) :
    (if l.isEmpty then (0:ℤ) else sumAmounts l) = sumAmounts l := by
  cases l <;> simp [sumAmounts]

/-- Same collapse for a filtered sum of budget entries. -/
lemma ifIsEmpty_sumBudgets_filter (l : List BudgetEntry) (p : BudgetEntry → Bool) :
    (if l.isEmpty then (0:ℤ) else sumBudgets (l.filter p)) = sumBudgets (l.filter p) := by
  cases l <;> simp [sumBudgets]

/-- Every successful dashboard row is the image of a budget entry that
survived the period filter, with net spending computed from the joined
transaction list. -/
lemma dashboard_mem (s : Store) (yl p : String) (rows : List DashboardRow)
    (r : DashboardRow)
    (hok : calculate_dashboard_data s yl p = Except.ok rows) (hr : r ∈ rows) :
    ∃ txns, fetch_transactions_with_categories s yl = Except.ok txns ∧
      ∃ e ∈ filterBudgetRows p (fetch_budget_entries s yl),
        r = { category := e.category_name, budget := e.budget,
              net_spending := spendingFor txns e.category_name,
              remaining := e.budget - spendingFor txns e.category_name,
              budget_type := e.budget_type } := by
  unfold calculate_dashboard_data at hok
  by_cases hb : (fetch_budget_entries s yl).isEmpty
  · rw [if_pos hb] at hok
    simp only [Except.ok.injEq] at hok
    subst hok
    simp at hr
  · rw [if_neg hb] at hok
    by_cases hb2 : (filterBudgetRows p (fetch_budget_entries s yl)).isEmpty
    · rw [if_pos hb2] at hok
      simp only [Except.ok.injEq] at hok
      subst hok
      simp at hr
    · rw [if_neg hb2] at hok
      cases htx : fetch_transactions_with_categories s yl with
      | error e => rw [htx] at hok; exact absurd hok (by simp)
      | ok txns =>
          rw [htx] at hok
          simp only [Except.ok.injEq] at hok
          subst hok
          obtain ⟨e, he, hre⟩ := List.mem_map.mp hr
          exact ⟨txns, rfl, e, he, hre.symm⟩

/-- Unfolding of the period filter: a surviving entry is an original entry
of a budget type selected by the filter, and is always an expense type. -/
lemma mem_filterBudgetRows (p : String) (l : List BudgetEntry) (e : BudgetEntry)
    (h : e ∈ filterBudgetRows p l) :
    e ∈ l ∧
    (p = "Sem 1" → e.budget_type = "semester1") ∧
    (p = "Sem 2" → e.budget_type = "semester2") ∧
    (p = "Year Expenses" → e.budget_type = "year") ∧
    (e.budget_type = "semester1" ∨ e.budget_type = "semester2" ∨ e.budget_type = "year") := by
  unfold filterBudgetRows at h
  by_cases h1 : p = "Sem 1"
  · subst h1
    rw [if_pos rfl] at h
    obtain ⟨hmem, ht⟩ := List.mem_filter.mp h
    simp only [beq_iff_eq] at ht
    exact ⟨hmem, fun _ => ht, fun hp => absurd hp (by decide),
      fun hp => absurd hp (by decide), Or.inl ht⟩
  · rw [if_neg h1] at h
    by_cases h2 : p = "Sem 2"
    · subst h2
      rw [if_pos rfl] at h
      obtain ⟨hmem, ht⟩ := List.mem_filter.mp h
      simp only [beq_iff_eq] at ht
      exact ⟨hmem, fun hp => absurd hp (by decide), fun _ => ht,
        fun hp => absurd hp (by decide), Or.inr (Or.inl ht)⟩
    · rw [if_neg h2] at h
      by_cases h3 : p = "Year Expenses"
      · subst h3
        rw [if_pos rfl] at h
        obtain ⟨hmem, ht⟩ := List.mem_filter.mp h
        simp only [beq_iff_eq] at ht
        exact ⟨hmem, fun hp => absurd hp (by decide), fun hp => absurd hp (by decide),
          fun _ => ht, Or.inr (Or.inr ht)⟩
      · rw [if_neg h3] at h
        obtain ⟨hmem, ht⟩ := List.mem_filter.mp h
        simp only [Bool.or_eq_true, beq_iff_eq] at ht
        exact ⟨hmem, fun hp => absurd hp h1, fun hp => absurd hp h2,
          fun hp => absurd hp h3, by tauto⟩

/-- Membership in insertDate: the inserted date plus the old members. -/
lemma mem_insertDate (d a : Nat) (l : List Nat) :
    a ∈ insertDate d l ↔ a = d ∨ a ∈ l := by
  induction l with
  | nil => simp [insertDate]
  | cons x xs ih =>
    simp only [insertDate]
    by_cases h1 : d < x
    · simp [h1, List.mem_cons]
    · rw [if_neg h1]
      by_cases h2 : d = x
      · subst h2
        simp [List.mem_cons]
      · rw [if_neg h2]
        simp [List.mem_cons, ih]
        tauto

/-- insertDate never produces the empty list. -/
lemma insertDate_ne_nil (d : Nat) (l : List Nat) : insertDate d l ≠ [] := by
  cases l with
  | nil => simp [insertDate]
  | cons x xs =>
    simp only [insertDate]
    by_cases h1 : d < x
    · simp [h1]
    · rw [if_neg h1]
      by_cases h2 : d = x
      · simp [h2]
      · simp [h2]

/-- insertDate preserves strict ascending order. -/
lemma sorted_insertDate (d : Nat) (l : List Nat) (h : l.Sorted (· < ·)) :
    (insertDate d l).Sorted (· < ·) := by
  induction l with
  | nil => simp [insertDate]
  | cons x xs ih =>
    rw [List.sorted_cons] at h
    obtain ⟨hx, hxs⟩ := h
    simp only [insertDate]
    by_cases h1 : d < x
    · rw [if_pos h1]
      rw [List.sorted_cons]
      refine ⟨?_, List.sorted_cons.mpr ⟨hx, hxs⟩⟩
      intro b hb
      rcases List.mem_cons.mp hb with rfl | hb
      · exact h1
      · exact h1.trans (hx b hb)
    · rw [if_neg h1]
      by_cases h2 : d = x
      · rw [if_pos h2]
        exact List.sorted_cons.mpr ⟨hx, hxs⟩
      · rw [if_neg h2]
        rw [List.sorted_cons]
        refine ⟨?_, ih hxs⟩
        intro b hb
        rcases (mem_insertDate d b xs).mp hb with rfl | hb
        · omega
        · exact hx b hb

/-- The insert fold keeps the accumulator strictly sorted. -/
lemma sorted_foldl_insert (txns : List TxnCat) (acc : List Nat)
    (h : acc.Sorted (· < ·)) :
    (txns.foldl (fun a t => insertDate t.txn_date a) acc).Sorted (· < ·) := by
  induction txns generalizing acc with
  | nil => exact h
  | cons t ts ih => exact ih _ (sorted_insertDate _ _ h)

/-- The groupby index is strictly ascending. -/
lemma sortedDates_sorted (txns : List TxnCat) : (sortedDates txns).Sorted (· < ·) :=
  sorted_foldl_insert txns [] (by simp)

/-- Membership after the insert fold: accumulator members plus every
transaction date. -/
lemma mem_foldl_insert (txns : List TxnCat) (acc : List Nat) (a : Nat) :
    a ∈ txns.foldl (fun l t => insertDate t.txn_date l) acc ↔
      a ∈ acc ∨ a ∈ txns.map (fun t => t.txn_date) := by
  induction txns generalizing acc with
  | nil => simp
  | cons t ts ih =>
    simp only [List.foldl_cons, ih, mem_insertDate, List.map_cons, List.mem_cons]
    tauto

/-- The groupby index holds exactly the transaction dates. -/
lemma mem_sortedDates (txns : List TxnCat) (a : Nat) :
    a ∈ sortedDates txns ↔ a ∈ txns.map (fun t => t.txn_date) := by
  simp [sortedDates, mem_foldl_insert]

/-- The insert fold of a non-empty accumulator stays non-empty. -/
lemma foldl_insert_ne_nil (txns : List TxnCat) (acc : List Nat) (h : acc ≠ []) :
    txns.foldl (fun l t => insertDate t.txn_date l) acc ≠ [] := by
  induction txns generalizing acc with
  | nil => exact h
  | cons t ts ih => exact ih _ (insertDate_ne_nil _ _)

/-- Non-empty transaction lists have a non-empty groupby index. -/
lemma sortedDates_ne_nil (t : TxnCat) (ts : List TxnCat) :
    sortedDates (t :: ts) ≠ [] := by
  unfold sortedDates
  rw [List.foldl_cons]
  exact foldl_insert_ne_nil ts _ (insertDate_ne_nil _ _)

/-- The cumulative walk visits exactly the given dates, in order. -/
lemma runBalances_map_date (txns : List TxnCat) (acc : ℤ) (ds : List Nat) :
    (runBalances txns acc ds).map (fun p => p.date) = ds := by
  induction ds generalizing acc with
  | nil => simp [runBalances]
  | cons d ds ih => simp [runBalances, ih]

/-- On a strictly sorted date list, every point of the cumulative walk
carries the seed plus the daily flows of all dates up to its own. -/
lemma runBalances_balance (txns : List TxnCat) (ds : List Nat) (acc : ℤ)
    (hs : ds.Sorted (· < ·)) (pt : CashFlowPoint)
    (hpt : pt ∈ runBalances txns acc ds) :
    pt.balance = acc + ((ds.filter (fun d => d ≤ pt.date)).map (dayFlow txns)).sum := by
  induction ds generalizing acc with
  | nil => simp [runBalances] at hpt
  | cons d ds ih =>
    rw [List.sorted_cons] at hs
    obtain ⟨hd, hs2⟩ := hs
    simp only [runBalances, List.mem_cons] at hpt
    rcases hpt with rfl | hpt
    · have hfil : ds.filter (fun x => decide (x ≤ d)) = [] := by
        apply List.filter_eq_nil_iff.mpr
        intro b hb
        have := hd b hb
        simp
        omega
      simp [List.filter_cons, hfil]
    · have hdate : pt.date ∈ ds := by
        have hmap := runBalances_map_date txns (acc + dayFlow txns d) ds
        rw [← hmap]
        exact List.mem_map.mpr ⟨pt, hpt, rfl⟩
      have hlt : d < pt.date := hd _ hdate
      rw [ih (acc + dayFlow txns d) hs2 hpt]
      rw [List.filter_cons]
      have : decide (d ≤ pt.date) = true := by simp; omega
      rw [this]
      simp only [if_true, List.map_cons, List.sum_cons]
      ring

/-- Summing a one-hot map over a duplicate-free list picks the single hit. -/
lemma sum_map_ite_eq (l : List Nat) (hnd : l.Nodup) (a : Nat) (c : ℤ) :
    (l.map (fun d => if a = d then c else 0)).sum = if a ∈ l then c else 0 := by
  induction l with
  | nil => simp
  | cons x xs ih =>
    rw [List.nodup_cons] at hnd
    simp only [List.map_cons, List.sum_cons, ih hnd.2]
    by_cases hax : a = x
    · subst hax
      simp [hnd.1]
    · simp [hax, List.mem_cons]

/-- The daily flow of a cons decomposes into the head contribution and the
tail flow. -/
lemma dayFlow_cons (t : TxnCat) (ts : List TxnCat) (d : Nat) :
    dayFlow (t :: ts) d = (if t.txn_date = d then flow t else 0) + dayFlow ts d := by
  simp only [dayFlow, List.filter_cons]
  by_cases h : t.txn_date = d <;> simp [h]

/-- Sums of pointwise additions split. -/
lemma sum_map_add_split (l : List Nat) (f g : Nat → ℤ) :
    (l.map (fun d => f d + g d)).sum = (l.map f).sum + (l.map g).sum := by
  induction l with
  | nil => simp
  | cons x xs ih =>
    simp only [List.map_cons, List.sum_cons, ih]
    ring

/-- Grouping by date partitions the signed flows: summing the daily flows
over a duplicate-free set of dates bounded by p that covers every relevant
transaction equals summing the flows of the transactions dated up to p. -/
lemma sum_dayFlow_eq (D : List Nat) (hnd : D.Nodup) (p : Nat)
    (hD : ∀ d ∈ D, d ≤ p) (txns : List TxnCat)
    (hcov : ∀ t ∈ txns, t.txn_date ≤ p → t.txn_date ∈ D) :
    (D.map (dayFlow txns)).sum
      = ((txns.filter (fun t => t.txn_date ≤ p)).map flow).sum := by
  induction txns with
  | nil =>
    simp only [List.filter_nil, List.map_nil, List.sum_nil]
    apply List.sum_eq_zero
    intro x hx
    obtain ⟨d, _, hdx⟩ := List.mem_map.mp hx
    rw [← hdx]
    simp [dayFlow]
  | cons t ts ih =>
    have hmapeq : D.map (dayFlow (t :: ts))
        = D.map (fun d => (if t.txn_date = d then flow t else 0) + dayFlow ts d) := by
      apply List.map_congr_left
      intro d _
      exact dayFlow_cons t ts d
    rw [hmapeq, sum_map_add_split, sum_map_ite_eq D hnd t.txn_date (flow t)]
    rw [List.filter_cons]
    have ihts := ih (fun u hu hup => hcov u (List.mem_cons_of_mem t hu) hup)
    by_cases htp : t.txn_date ≤ p
    · have hmem : t.txn_date ∈ D := hcov t (List.mem_cons_self t ts) htp
      simp [hmem, htp, ihts]
    · have hmem : t.txn_date ∉ D := fun hm => htp (hD _ hm)
      simp [hmem, htp, ihts]

/-! Claim theorems. -/

/-- Claim C1: for every year whose data are actually fetched (non-empty
year_label), calculate_budget_metrics returns as total_income the sum of
the budget column over the entries of type income, as sem1/sem2/year the
sums for the other three types, total_expenses_all as their sum and
free_float as opening_cash + total_income - total_expenses_all - savings;
on the Scenario A snapshot the free float is 570. -/
theorem budget_metrics_totals :
    (∀ (s : Store) (yl : String), yl ≠ "" →
      (calculate_budget_metrics s yl).opening_cash = get_opening_cash s yl ∧
      (calculate_budget_metrics s yl).savings = get_savings s yl ∧
      (calculate_budget_metrics s yl).total_income
        = sumBudgets ((fetch_budget_entries s yl).filter (fun e => e.budget_type == "income")) ∧
      (calculate_budget_metrics s yl).total_expenses_sem1
        = sumBudgets ((fetch_budget_entries s yl).filter (fun e => e.budget_type == "semester1")) ∧
      (calculate_budget_metrics s yl).total_expenses_sem2
        = sumBudgets ((fetch_budget_entries s yl).filter (fun e => e.budget_type == "semester2")) ∧
      (calculate_budget_metrics s yl).total_expenses_year
        = sumBudgets ((fetch_budget_entries s yl).filter (fun e => e.budget_type == "year")) ∧
      (calculate_budget_metrics s yl).total_expenses_all
        = (calculate_budget_metrics s yl).total_expenses_sem1
          + (calculate_budget_metrics s yl).total_expenses_sem2
          + (calculate_budget_metrics s yl).total_expenses_year ∧
      (calculate_budget_metrics s yl).free_float
        = (calculate_budget_metrics s yl).opening_cash
          + (calculate_budget_metrics s yl).total_income
          - (calculate_budget_metrics s yl).total_expenses_all
          - (calculate_budget_metrics s yl).savings) ∧
    calculate_budget_metrics exStore "2025-26"
      = { opening_cash := 50, total_income := 1000, total_expenses_sem1 := 200,
          total_expenses_sem2 := 150, total_expenses_year := 100, total_expenses_all := 450,
          savings := 30, free_float := 570 } := by
  constructor
  · intro s yl h
    refine ⟨?_, ?_, ?_, ?_, ?_, ?_, ?_, ?_⟩ <;>
      simp [calculate_budget_metrics, if_neg h, ifIsEmpty_sumBudgets_filter] <;>
      (intro h0; simp [h0, sumBudgets])
  · decide

/-- Witness for C1: the universal part instantiated on the Scenario A
snapshot. -/
theorem budget_metrics_totals_witness :
    ("2025-26" : String) ≠ "" ∧
    ((calculate_budget_metrics exStore "2025-26").opening_cash
        = get_opening_cash exStore "2025-26" ∧
      (calculate_budget_metrics exStore "2025-26").savings = get_savings exStore "2025-26" ∧
      (calculate_budget_metrics exStore "2025-26").total_income
        = sumBudgets ((fetch_budget_entries exStore "2025-26").filter
            (fun e => e.budget_type == "income")) ∧
      (calculate_budget_metrics exStore "2025-26").total_expenses_sem1
        = sumBudgets ((fetch_budget_entries exStore "2025-26").filter
            (fun e => e.budget_type == "semester1")) ∧
      (calculate_budget_metrics exStore "2025-26").total_expenses_sem2
        = sumBudgets ((fetch_budget_entries exStore "2025-26").filter
            (fun e => e.budget_type == "semester2")) ∧
      (calculate_budget_metrics exStore "2025-26").total_expenses_year
        = sumBudgets ((fetch_budget_entries exStore "2025-26").filter
            (fun e => e.budget_type == "year")) ∧
      (calculate_budget_metrics exStore "2025-26").total_expenses_all
        = (calculate_budget_metrics exStore "2025-26").total_expenses_sem1
          + (calculate_budget_metrics exStore "2025-26").total_expenses_sem2
          + (calculate_budget_metrics exStore "2025-26").total_expenses_year ∧
      (calculate_budget_metrics exStore "2025-26").free_float
        = (calculate_budget_metrics exStore "2025-26").opening_cash
          + (calculate_budget_metrics exStore "2025-26").total_income
          - (calculate_budget_metrics exStore "2025-26").total_expenses_all
          - (calculate_budget_metrics exStore "2025-26").savings) :=
  ⟨by decide, budget_metrics_totals.1 exStore "2025-26" (by decide)⟩

/-- Claim C2: every row of a successful dashboard output comes from a
budget entry selected by the period filter (Sem 1 only semester1, Sem 2
only semester2, Year Expenses only year, and always one of the three
expense types, never income), its net_spending is the signed sum of
net_amount over the joined transactions of its category (0 when the
category has no transactions, as the empty sum), and remaining equals
budget - net_spending. -/
theorem dashboard_rows_correct (s : Store) (yl p : String) (rows : List DashboardRow)
    (r : DashboardRow)
    (hok : calculate_dashboard_data s yl p = Except.ok rows) (hr : r ∈ rows) :
    (∃ e ∈ fetch_budget_entries s yl,
        e.category_name = r.category ∧ e.budget = r.budget ∧
        e.budget_type = r.budget_type) ∧
    (p = "Sem 1" → r.budget_type = "semester1") ∧
    (p = "Sem 2" → r.budget_type = "semester2") ∧
    (p = "Year Expenses" → r.budget_type = "year") ∧
    (r.budget_type = "semester1" ∨ r.budget_type = "semester2" ∨ r.budget_type = "year") ∧
    r.budget_type ≠ "income" ∧
    (∃ txns, fetch_transactions_with_categories s yl = Except.ok txns ∧
      r.net_spending
        = ((txns.filter (fun t => t.category == r.category)).map net_amount).sum) ∧
    r.remaining = r.budget - r.net_spending := by
  obtain ⟨txns, htx, e, he, hre⟩ := dashboard_mem s yl p rows r hok hr
  obtain ⟨hmem, hs1, hs2, hs3, hunion⟩ := mem_filterBudgetRows p _ e he
  subst hre
  refine ⟨⟨e, hmem, rfl, rfl, rfl⟩, hs1, hs2, hs3, hunion, ?_, ⟨txns, htx, rfl⟩, rfl⟩
  rcases hunion with h | h | h <;> simp [h]

/-- Witness for C2: the Food row of the Sem 1 dashboard of exStore. -/
theorem dashboard_rows_correct_witness :
    (∃ e ∈ fetch_budget_entries exStore "2025-26",
        e.category_name = exFoodRow.category ∧ e.budget = exFoodRow.budget ∧
        e.budget_type = exFoodRow.budget_type) ∧
    (("Sem 1" : String) = "Sem 1" → exFoodRow.budget_type = "semester1") ∧
    (("Sem 1" : String) = "Sem 2" → exFoodRow.budget_type = "semester2") ∧
    (("Sem 1" : String) = "Year Expenses" → exFoodRow.budget_type = "year") ∧
    (exFoodRow.budget_type = "semester1" ∨ exFoodRow.budget_type = "semester2" ∨
      exFoodRow.budget_type = "year") ∧
    exFoodRow.budget_type ≠ "income" ∧
    (∃ txns, fetch_transactions_with_categories exStore "2025-26" = Except.ok txns ∧
      exFoodRow.net_spending
        = ((txns.filter (fun t => t.category == exFoodRow.category)).map net_amount).sum) ∧
    exFoodRow.remaining = exFoodRow.budget - exFoodRow.net_spending :=
  dashboard_rows_correct exStore "2025-26" "Sem 1" [exFoodRow] exFoodRow rfl
    (by decide)

/-- Claim C3: on a successful cash-flow computation for a year with at
least one fetched transaction, the point dates are strictly ascending,
they are exactly the distinct transaction dates (one point per date), and
each balance is the opening cash plus the signed flows of every
transaction dated up to and including that point. -/
theorem cash_flow_evolution_correct (s : Store) (yl : String)
    (pts : List CashFlowPoint) (txns : List TxnCat)
    (htx : fetch_transactions_with_categories s yl = Except.ok txns)
    (hne : txns ≠ [])
    (hok : calculate_cash_flow_evolution s yl = Except.ok pts) :
    (pts.map (fun p => p.date)).Sorted (· < ·) ∧
    (∀ d : Nat, d ∈ pts.map (fun p => p.date) ↔ d ∈ txns.map (fun t => t.txn_date)) ∧
    (∀ pt ∈ pts, pt.balance
        = get_opening_cash s yl
          + ((txns.filter (fun t => t.txn_date ≤ pt.date)).map flow).sum) := by
  unfold calculate_cash_flow_evolution at hok
  rw [htx] at hok
  have hne2 : txns.isEmpty = false := by
    cases txns with
    | nil => exact absurd rfl hne
    | cons a l => rfl
  simp only [hne2, Bool.false_eq_true, if_false, Except.ok.injEq] at hok
  subst hok
  refine ⟨?_, ?_, ?_⟩
  · rw [runBalances_map_date]
    exact sortedDates_sorted txns
  · intro d
    rw [runBalances_map_date]
    exact mem_sortedDates txns d
  · intro pt hpt
    rw [runBalances_balance txns (sortedDates txns) _ (sortedDates_sorted txns) pt hpt]
    congr 1
    apply sum_dayFlow_eq
    · exact ((sortedDates_sorted txns).nodup).filter _
    · intro d hd
      have := List.of_mem_filter hd
      simpa using this
    · intro t ht htle
      rw [List.mem_filter]
      refine ⟨(mem_sortedDates txns t.txn_date).mpr ?_, by simpa using htle⟩
      exact List.mem_map.mpr ⟨t, ht, rfl⟩

/-- Witness for C3: exStore yields the series [(2, 100), (3, 70)], whose
dates ascend and whose balances satisfy the cumulative identity (opening
cash 50, flow +50 on day 2, flow -30 on day 3). -/
theorem cash_flow_evolution_correct_witness :
    (([⟨2, 100⟩, ⟨3, 70⟩] : List CashFlowPoint).map (fun p => p.date)).Sorted (· < ·) ∧
    ((⟨2, 100⟩ : CashFlowPoint).balance
        = get_opening_cash exStore "2025-26"
          + ((exTxnsCat.filter (fun t => t.txn_date ≤ 2)).map flow).sum) ∧
    ((⟨3, 70⟩ : CashFlowPoint).balance
        = get_opening_cash exStore "2025-26"
          + ((exTxnsCat.filter (fun t => t.txn_date ≤ 3)).map flow).sum) := by
  have h := cash_flow_evolution_correct exStore "2025-26" [⟨2, 100⟩, ⟨3, 70⟩] exTxnsCat
    rfl (by decide) rfl
  exact ⟨h.1, h.2.2 ⟨2, 100⟩ (by decide), h.2.2 ⟨3, 70⟩ (by decide)⟩

/-- Claim C4: calculate_working_capital_metrics always returns the sums of
the fetched AR, AP and Inventory rows (0 for empty sets) and satisfies
nwc = total_ar + total_inventory - total_ap. -/
theorem wc_nwc_identity (s : Store) (yl : String) :
    (calculate_working_capital_metrics s yl).total_ar
        = sumAmounts (load_working_capital s (some yl) "AR") ∧
    (calculate_working_capital_metrics s yl).total_ap
        = sumAmounts (load_working_capital s (some yl) "AP") ∧
    (calculate_working_capital_metrics s yl).total_inventory
        = sumAmounts (load_working_capital s none "INVENTORY") ∧
    (calculate_working_capital_metrics s yl).nwc
        = (calculate_working_capital_metrics s yl).total_ar
          + (calculate_working_capital_metrics s yl).total_inventory
          - (calculate_working_capital_metrics s yl).total_ap := by
  refine ⟨?_, ?_, ?_, ?_⟩ <;>
    simp [calculate_working_capital_metrics, ifIsEmpty_sumAmounts] <;>
    (intro h; simp [h, sumAmounts])

/-- Claim C5, counterexample: on a snapshot whose transactions table is
globally empty, a year with opening cash 500 and zero transactions does
not get the single fallback point: the fetch layer stops the script
(st.stop raises StopException) before the fallback branch is reached, so
calculate_cash_flow_evolution raises instead of returning a point. -/
theorem cash_flow_fallback_counterexample :
    get_opening_cash emptyTxnStore "2025-26" = 500 ∧
    emptyTxnStore.transactions = [] ∧
    calculate_cash_flow_evolution emptyTxnStore "2025-26"
      = Except.error "st.stop: No transactions yet." :=
  ⟨rfl, rfl, rfl⟩

/-- Claim C5, amended: for a year whose fetched transaction set is empty,
calculate_cash_flow_evolution returns exactly the single point
(today, opening_cash) provided the transactions table is globally
non-empty (else st.stop halts first) and the year has at least one budget
row (else the category fetch yields None and the join raises); moreover a
successful computation never returns an empty series. -/
theorem cash_flow_fallback_amended :
    (∀ (s : Store) (yl : String),
      s.transactions ≠ [] →
      s.transactions.filter (fun t => t.year_label == yl) = [] →
      fetch_categories_df s yl ≠ none →
      calculate_cash_flow_evolution s yl
        = Except.ok [{ date := s.today, balance := get_opening_cash s yl }]) ∧
    (∀ (s : Store) (yl : String) (pts : List CashFlowPoint),
      calculate_cash_flow_evolution s yl = Except.ok pts → pts ≠ []) := by
  constructor
  · intro s yl hglob hfil hcats
    obtain ⟨cats, hc⟩ := Option.ne_none_iff_exists'.mp hcats
    have hglob2 : s.transactions.isEmpty = false := by
      cases h : s.transactions with
      | nil => exact absurd h hglob
      | cons a l => rfl
    unfold calculate_cash_flow_evolution fetch_transactions_with_categories
      fetch_transactions
    simp only [hglob2, Bool.false_eq_true, if_false, hc, hfil, List.map_nil,
      List.isEmpty_nil, if_true]
  · intro s yl pts hok
    unfold calculate_cash_flow_evolution at hok
    cases htx : fetch_transactions_with_categories s yl with
    | error e => rw [htx] at hok; exact absurd hok (by simp)
    | ok txns =>
        rw [htx] at hok
        cases hte : txns with
        | nil =>
            subst hte
            simp only [List.isEmpty_nil, if_true, Except.ok.injEq] at hok
            subst hok
            simp
        | cons t ts =>
            subst hte
            simp only [List.isEmpty_cons, Bool.false_eq_true, if_false,
              Except.ok.injEq] at hok
            subst hok
            intro hnil
            have := runBalances_map_date (t :: ts) (get_opening_cash s yl)
              (sortedDates (t :: ts))
            rw [hnil] at this
            exact sortedDates_ne_nil t ts this.symm

/-- Witness for the amended C5: year B of fallbackStore has no
transactions while year A has one and B has a budget row, so the fallback
single point (42, 500) is returned; and the exStore series is non-empty. -/
theorem cash_flow_fallback_amended_witness :
    calculate_cash_flow_evolution fallbackStore "B"
      = Except.ok [{ date := fallbackStore.today, balance := get_opening_cash fallbackStore "B" }] ∧
    ([⟨2, 100⟩, ⟨3, 70⟩] : List CashFlowPoint) ≠ [] :=
  ⟨cash_flow_fallback_amended.1 fallbackStore "B" (by decide) (by decide) (by decide),
   cash_flow_fallback_amended.2 exStore "2025-26" [⟨2, 100⟩, ⟨3, 70⟩] rfl⟩

/-- Claim C6: when the evolution series is computed successfully,
calculate_current_cash_position returns the balance of its last point
(falling back to the opening cash on an empty series), and
calculate_cash_position_with_nwc adds the nwc of the working-capital
metrics to the current cash position. -/
theorem cash_position_composition :
    (∀ (s : Store) (yl : String) (pts : List CashFlowPoint),
      calculate_cash_flow_evolution s yl = Except.ok pts →
      calculate_current_cash_position s yl
        = Except.ok
            (((pts.getLast?).map (fun p => p.balance)).getD (get_opening_cash s yl))) ∧
    (∀ (s : Store) (yl : String) (c : ℤ),
      calculate_current_cash_position s yl = Except.ok c →
      calculate_cash_position_with_nwc s yl
        = Except.ok (c + (calculate_working_capital_metrics s yl).nwc)) := by
  constructor
  · intro s yl pts h
    unfold calculate_current_cash_position
    rw [h]
    cases hg : pts.getLast? <;> simp [hg]
  · intro s yl c h
    unfold calculate_cash_position_with_nwc
    rw [h]

/-- Witness for C6: on exStore the current position is the last balance 70
and the composed position adds nwc = 270. -/
theorem cash_position_composition_witness :
    calculate_current_cash_position exStore "2025-26"
      = Except.ok
          (((([⟨2, 100⟩, ⟨3, 70⟩] : List CashFlowPoint).getLast?).map
              (fun p => p.balance)).getD (get_opening_cash exStore "2025-26")) ∧
    calculate_cash_position_with_nwc exStore "2025-26"
      = Except.ok (70 + (calculate_working_capital_metrics exStore "2025-26").nwc) :=
  ⟨cash_position_composition.1 exStore "2025-26" [⟨2, 100⟩, ⟨3, 70⟩] rfl,
   cash_position_composition.2 exStore "2025-26" 70 rfl⟩

/-- Claim C7: for an empty year_label, and for any year_label absent from
every table of the data store, calculate_budget_metrics returns the
all-zero record; the function is total, so it never raises. -/
theorem budget_metrics_zero_for_absent_year (s : Store) (yl : String)
    (h : yl = "" ∨
      ((∀ r ∈ s.budget_years, r.year_label ≠ yl) ∧
       (∀ p ∈ s.savings, p.1 ≠ yl) ∧
       (∀ e ∈ s.budget_entries, e.year_label ≠ yl))) :
    calculate_budget_metrics s yl =
      { opening_cash := 0, total_income := 0, total_expenses_sem1 := 0,
        total_expenses_sem2 := 0, total_expenses_year := 0, total_expenses_all := 0,
        savings := 0, free_float := 0 } := by
  rcases h with h | ⟨hy, hs, he⟩
  · simp [calculate_budget_metrics, h]
  · by_cases hyl : yl = ""
    · simp [calculate_budget_metrics, hyl]
    · have h1 : s.budget_years.find? (fun r => r.year_label == yl) = none :=
        List.find?_eq_none.mpr (fun r hr => by simpa using hy r hr)
      have h2 : s.savings.find? (fun p => p.1 == yl) = none :=
        List.find?_eq_none.mpr (fun p hp => by simpa using hs p hp)
      have h3 : s.budget_entries.filter (fun e => e.year_label == yl) = [] :=
        List.filter_eq_nil_iff.mpr (fun e heq => by simpa using he e heq)
      simp [calculate_budget_metrics, hyl, get_opening_cash, get_savings,
        fetch_budget_entries, h1, h2, h3]

/-- Witness for C7: the year 2030-31 is absent from exStore and gets the
all-zero record. -/
theorem budget_metrics_zero_for_absent_year_witness :
    calculate_budget_metrics exStore "2030-31" =
      { opening_cash := 0, total_income := 0, total_expenses_sem1 := 0,
        total_expenses_sem2 := 0, total_expenses_year := 0, total_expenses_all := 0,
        savings := 0, free_float := 0 } :=
  budget_metrics_zero_for_absent_year exStore "2030-31" (by decide)

/-- Claim C8: for a fixed snapshot, total_inventory is the same for any
two year_label arguments, because the Inventory fetch passes no year. -/
theorem inventory_year_independent (s : Store) (yl1 yl2 : String) :
    (calculate_working_capital_metrics s yl1).total_inventory
      = (calculate_working_capital_metrics s yl2).total_inventory := rfl

/-- Claim C9: net_spending is period-independent: rows of the dashboard
computed with two different period filters agree on net_spending whenever
they agree on category, because the transaction stream is fetched for the
whole year and never filtered by period. -/
theorem net_spending_period_independent (s : Store) (yl p1 p2 : String)
    (rows1 rows2 : List DashboardRow) (r1 r2 : DashboardRow)
    (h1 : calculate_dashboard_data s yl p1 = Except.ok rows1)
    (h2 : calculate_dashboard_data s yl p2 = Except.ok rows2)
    (hr1 : r1 ∈ rows1) (hr2 : r2 ∈ rows2) (hc : r1.category = r2.category) :
    r1.net_spending = r2.net_spending := by
  obtain ⟨txns1, htx1, e1, he1, hre1⟩ := dashboard_mem s yl p1 rows1 r1 h1 hr1
  obtain ⟨txns2, htx2, e2, he2, hre2⟩ := dashboard_mem s yl p2 rows2 r2 h2 hr2
  have htxeq : txns1 = txns2 := by
    have := htx1.symm.trans htx2
    exact Except.ok.inj this
  subst htxeq
  have hcat1 : e1.category_name = r1.category := by rw [hre1]
  have hcat2 : e2.category_name = r2.category := by rw [hre2]
  have hns1 : r1.net_spending = spendingFor txns1 e1.category_name := by rw [hre1]
  have hns2 : r2.net_spending = spendingFor txns1 e2.category_name := by rw [hre2]
  rw [hns1, hns2, hcat1, hcat2, hc]

/-- Witness for C9: the Food rows of the Everything and Sem 1 dashboards
of exStore carry the same net spending. -/
theorem net_spending_period_independent_witness :
    exFoodRow.net_spending = exFoodRow.net_spending :=
  net_spending_period_independent exStore "2025-26" "Everything" "Sem 1"
    exRowsEverything [exFoodRow] exFoodRow exFoodRow rfl rfl
    (by decide) (by decide) rfl

/-- Claim C10: any period_filter other than Sem 1, Sem 2 and Year Expenses
falls into the catch-all branch and behaves exactly like Everything, with
no error raised. -/
theorem dashboard_unrecognized_filter (s : Store) (yl p : String)
    (h1 : p ≠ "Sem 1") (h2 : p ≠ "Sem 2") (h3 : p ≠ "Year Expenses") :
    calculate_dashboard_data s yl p = calculate_dashboard_data s yl "Everything" := by
  simp [calculate_dashboard_data, filterBudgetRows, h1, h2, h3]

/-- Witness for C10: the misspelled filter Bananas produces the Everything
output on exStore. -/
theorem dashboard_unrecognized_filter_witness :
    calculate_dashboard_data exStore "2025-26" "Bananas"
      = calculate_dashboard_data exStore "2025-26" "Everything" :=
  dashboard_unrecognized_filter exStore "2025-26" "Bananas"
    (by decide) (by decide) (by decide)
